import Mathlib

/-!
Verification of the real-time audio session core (`LiveConversation.tsx`)
and the video-generation retry logic (`VeoStudio.tsx`) of the repository.

The component state is embedded shallowly: each React ref / piece of
`useState` state becomes a field of `LiveState`.  Resource handles
(`MediaStream`, `ScriptProcessorNode`, `AudioContext`, session, analyser)
are modelled as Booleans recording whether the handle is currently held;
the animation-frame handle is a `Nat` (0 = none, as in the source).  The
set of currently scheduled `AudioBufferSourceNode`s (`sourcesRef`) is a
list of node identifiers.  Times on the output-audio-context clock are
rationals.  Two ghost observation fields (`connectAttempts`,
`errorsSurfaced`) count calls to `ai.live.connect` and to `setError` with
a non-null message; `scheduled` records the start times passed to
`sourceNode.start`, in order.
-/

/-- An inbound audio payload (`inlineData.data` after base64 decoding).
A well-formed payload decodes to a chunk of a definite duration (seconds,
as a rational); a corrupted payload makes decoding fail. -/
inductive Payload where
  | ok (duration : ℚ)
  | corrupted
deriving Repr, DecidableEq

/-- Modelled from the spec: `decode` / `decodeAudioData` live in
`utils/audioUtils`, which is imported by `LiveConversation.tsx` but is not
among the provided sources.  Per the spec (§7, `DecodeError`), decoding a
malformed/undecodable payload fails; a well-formed payload yields an
`AudioBuffer` whose only relevant attribute here is its `duration`. -/
def decodeAudioData : Payload → Option ℚ
  | .ok d => some d
  | .corrupted => none

/-- A `LiveServerMessage` as read by `onmessage`: it may carry an inline
audio payload (`message.serverContent?.modelTurn?.parts?.[0]?.inlineData?.data`)
and, independently, the interruption flag (`message.serverContent?.interrupted`). -/
structure ServerMessage where
  audioData : Option Payload
  interrupted : Bool
deriving Repr, DecidableEq

/-- The state of the `LiveConversation` component: `useState` state
(`isConnected`, `isSpeaking`, `error`, `logs`) and the refs
(`animationFrameRef`, `analyserRef`, `sessionRef`, `mediaStreamRef`,
`scriptProcessorRef`, `sourcesRef`, `audioContextRef`, `nextStartTimeRef`),
plus observation fields (`scheduled`, `connectAttempts`, `errorsSurfaced`). -/
structure LiveState where
  isConnected : Bool
  isSpeaking : Bool
  error : Option String
  logs : List String
  animationFrame : Nat
  analyser : Bool
  session : Bool
  mediaStream : Bool
  scriptProcessor : Bool
  sources : List Nat
  audioContext : Bool
  nextStartTime : ℚ
  scheduled : List ℚ
  connectAttempts : Nat
  errorsSurfaced : Nat
deriving Repr, DecidableEq

/-- `addLog` as a pure list operation: `setLogs(prev => [...prev.slice(-4), msg])`.
JavaScript `prev.slice(-4)` keeps the last `min 4 prev.length` entries. -/
def addLog (prev : List String) (msg : String) : List String :=
  prev.drop (prev.length - 4) ++ [msg]

/-- `addLog` applied to the component state. -/
def addLogS (s : LiveState) (msg : String) : LiveState :=
  { s with logs := addLog s.logs msg }

/-- `stopConversation`: cancel the animation frame, null the analyser, drop
the session handle, stop the microphone tracks, disconnect the script
processor, force-stop and clear all scheduled sources, close the audio
context, set `isConnected`/`isSpeaking` false, and log.  Every release step
is guarded exactly as in the source; `source.stop()` and
`audioContext.close()` failures are swallowed there (try/catch), so the
model is a total function. -/
def stopConversation (s : LiveState) : LiveState :=
  let s := if s.animationFrame ≠ 0 then { s with animationFrame := 0 } else s
  let s := { s with analyser := false }
  let s := if s.session then { s with session := false } else s
  let s := if s.mediaStream then { s with mediaStream := false } else s
  let s := if s.scriptProcessor then { s with scriptProcessor := false } else s
  let s := { s with sources := [] }
  let s := if s.audioContext then { s with audioContext := false } else s
  let s := { s with isConnected := false, isSpeaking := false }
  addLogS s "Conversation ended"

/-- The trailing interruption check of `onmessage`: on
`serverContent?.interrupted`, log, force-stop every outstanding source,
clear the set, reset the cursor to `audioCtx.currentTime`, and clear the
speaking flag. -/
def handleInterruption (clock : ℚ) (m : ServerMessage) (s : LiveState) : LiveState :=
  if m.interrupted then
    { addLogS s "Interrupted" with
        sources := [], nextStartTime := clock, isSpeaking := false }
  else s

/-- `onmessage`, processed atomically at output-clock time `clock`, with
`newId` the identity of the freshly created `AudioBufferSourceNode`.
Mirrors the source: if an audio payload is present, set the speaking flag,
sync the cursor to `max(cursor, audioCtx.currentTime)`, then `await`
decoding; a decode failure rejects the async handler and aborts it (there
is no try/catch), so nothing further in the handler runs — in particular
the interruption check is skipped.  On success, start the node at the
cursor, advance the cursor by the chunk duration, and add the node to the
outstanding set.  Finally (when reached) handle the interruption flag. -/
def onmessage (clock : ℚ) (newId : Nat) (m : ServerMessage) (s : LiveState) : LiveState :=
  match m.audioData with
  | some payload =>
    let s1 := { s with isSpeaking := true }
    let s2 := { s1 with nextStartTime := max s1.nextStartTime clock }
    match decodeAudioData payload with
    | none => s2
    | some dur =>
      let s3 := { s2 with
        scheduled := s2.scheduled ++ [s2.nextStartTime],
        nextStartTime := s2.nextStartTime + dur,
        sources := s2.sources ++ [newId] }
      handleInterruption clock m s3
  | none => handleInterruption clock m s

/-- The `ended` listener of a scheduled source node: remove the node from
the outstanding set; if the set is now empty, clear the speaking flag. -/
def onended (id : Nat) (s : LiveState) : LiveState :=
  let s := { s with sources := s.sources.erase id }
  if s.sources.isEmpty then { s with isSpeaking := false } else s

/-- `onclose`: log, then run the same teardown as `stopConversation`. -/
def onclose (s : LiveState) : LiveState :=
  stopConversation (addLogS s "Disconnected by server")

/-- `onerror`: surface a user-visible error (`setError("Connection error")`),
then run the same teardown as `stopConversation`. -/
def onerror (s : LiveState) : LiveState :=
  stopConversation
    { s with error := some "Connection error",
             errorsSurfaced := s.errorsSurfaced + 1 }

/-- `startConversation`, up to the point where the connection attempt is
issued.  `permissionGranted` is the outcome of
`navigator.mediaDevices.getUserMedia`; when it is denied the thrown
error's `message` is `errMsg` and the catch block surfaces
`err.message || "Failed to start conversation"` (JavaScript falsiness:
an empty message falls back to the default) and runs `stopConversation`.
When granted, the resources are acquired, the cursor is set to the fresh
output context's clock (0), the visualizer loop is started, and exactly
one `ai.live.connect` attempt is issued. -/
def startConversation (permissionGranted : Bool) (errMsg : String) (s : LiveState) : LiveState :=
  let s := { s with error := none }
  let s := addLogS s "Requesting microphone..."
  if permissionGranted then
    let s := { s with mediaStream := true }
    let s := addLogS s "Initializing AudioContext..."
    let s := { s with audioContext := true, nextStartTime := 0,
                      scriptProcessor := true, analyser := true,
                      animationFrame := 1 }
    let s := addLogS s "Connecting to Gemini Live..."
    { s with connectAttempts := s.connectAttempts + 1 }
  else
    let msg := if errMsg = "" then "Failed to start conversation" else errMsg
    stopConversation
      { s with error := some msg, errorsSurfaced := s.errorsSurfaced + 1 }

/-- The component's initial state: all `useState` initials and ref initials
from the source. -/
def initialState : LiveState :=
  { isConnected := false, isSpeaking := false, error := none, logs := [],
    animationFrame := 0, analyser := false, session := false,
    mediaStream := false, scriptProcessor := false, sources := [],
    audioContext := false, nextStartTime := 0, scheduled := [],
    connectAttempts := 0, errorsSurfaced := 0 }

/-- A freshly connected session: `onopen` has set `isConnected`, and the
playback cursor sits at the fresh output context's clock origin 0. -/
def connectedState : LiveState :=
  { initialState with isConnected := true }

/-- Run a list of `onmessage` events, each given as
(clock at arrival, fresh node id, message), in arrival order. -/
def runMessages (events : List (ℚ × Nat × ServerMessage)) (s : LiveState) : LiveState :=
  events.foldl (fun st e => onmessage e.1 e.2.1 e.2.2 st) s

/-- All resources of the component are released: no animation frame, no
analyser, no session handle, no microphone stream, no script processor,
no outstanding sources, no audio context. -/
def released (s : LiveState) : Bool :=
  s.animationFrame == 0 && !s.analyser && !s.session && !s.mediaStream &&
    !s.scriptProcessor && s.sources.isEmpty && !s.audioContext

/-- The teardown-observable part of the state: every resource handle plus
the connection and speaking flags (logs and the error message are reported
separately by the callers of the teardown). -/
def teardownObs (s : LiveState) :
    Nat × Bool × Bool × Bool × Bool × List Nat × Bool × Bool × Bool :=
  (s.animationFrame, s.analyser, s.session, s.mediaStream,
   s.scriptProcessor, s.sources, s.audioContext, s.isConnected, s.isSpeaking)

/-- Wrap a (clock, node id, duration) triple as an audio-only message event. -/
def okEvent (e : ℚ × Nat × ℚ) : ℚ × Nat × ServerMessage :=
  (e.1, e.2.1, ⟨some (Payload.ok e.2.2), false⟩)

/-- JavaScript `String.prototype.includes`. -/
def includes (s pat : String) : Bool :=
  decide (pat.toList <:+: s.toList)

/-- The error-message test of `generateVideo`'s catch block:
`err.message.includes('Requested entity was not found') || err.message.includes('403')`. -/
def errMatches (msg : String) : Bool :=
  includes msg "Requested entity was not found" || includes msg "403"

/-- The environment of one `generateVideo` run: whether
`window.aistudio?.openSelectKey` is available, and the outcomes the hosted
service would give to the first and (if issued) second
`ai.models.generateVideos` request.  A failed request carries its error
message. -/
structure VideoEnv where
  aistudioAvailable : Bool
  attempt1 : Except String Unit
  attempt2 : Except String Unit
deriving Repr

/-- What a `generateVideo` run did: how many `generateVideos` requests were
issued, how many times credential selection (`openSelectKey`) was
re-triggered from the catch block, and the surfaced outcome. -/
structure VideoOutcome where
  attempts : Nat
  selectKeyTriggers : Nat
  result : Except String Unit
deriving Repr

/-- The request/retry portion of `generateVideo` (`VeoStudio.tsx`): issue
the first request; on an error whose message (when truthy) contains
`Requested entity was not found` or `403`, and when
`window.aistudio?.openSelectKey` exists, re-trigger credential selection
and retry exactly once, surfacing whatever the retry returns; otherwise
rethrow, so the outer catch surfaces the original error. -/
def generateVideo (env : VideoEnv) : VideoOutcome :=
  match env.attempt1 with
  | .ok _ => ⟨1, 0, .ok ()⟩
  | .error msg =>
    if !(msg == "") && errMatches msg then
      if env.aistudioAvailable then
        ⟨2, 1, env.attempt2⟩
      else
        ⟨1, 0, .error msg⟩
    else
      ⟨1, 0, .error msg⟩

/-- The speaking-flag invariant claimed by the spec: the externally
observable flag is off exactly when the Outstanding Chunk Set is empty. -/
def speakingInv (s : LiveState) : Prop :=
  s.isSpeaking = false ↔ s.sources = []

/-! ### Helper lemmas -/

/-- Closed form of `stopConversation`: every guard in the source leads to
the same released state. -/
theorem stop_spec (s : LiveState) :
    stopConversation s =
      { s with animationFrame := 0, analyser := false, session := false,
               mediaStream := false, scriptProcessor := false, sources := [],
               audioContext := false, isConnected := false, isSpeaking := false,
               logs := addLog s.logs "Conversation ended" } := by
  obtain ⟨c, sp, er, lg, af, an, se, ms, pr, so, ac, ns, sc, ca, es⟩ := s
  simp only [stopConversation, addLogS]
  split_ifs <;> simp_all

/-- Closed form of `onmessage` on a decodable audio payload with no
interruption flag. -/
theorem onmessage_ok (clock d : ℚ) (newId : Nat) (s : LiveState) :
    onmessage clock newId ⟨some (Payload.ok d), false⟩ s =
      { s with isSpeaking := true,
               scheduled := s.scheduled ++ [max s.nextStartTime clock],
               nextStartTime := max s.nextStartTime clock + d,
               sources := s.sources ++ [newId] } := rfl

/-- Closed form of `onmessage` on a corrupted audio payload: the decode
rejection aborts the handler after the speaking flag and the cursor sync,
regardless of the interruption flag. -/
theorem onmessage_corrupted (clock : ℚ) (newId : Nat) (intr : Bool) (s : LiveState) :
    onmessage clock newId ⟨some Payload.corrupted, intr⟩ s =
      { s with isSpeaking := true,
               nextStartTime := max s.nextStartTime clock } := rfl

/-- `onmessage` never touches the connection flag. -/
theorem onmessage_isConnected (clock : ℚ) (newId : Nat) (m : ServerMessage) (s : LiveState) :
    (onmessage clock newId m s).isConnected = s.isConnected := by
  obtain ⟨a, i⟩ := m
  match a, i with
  | none, i => cases i <;> rfl
  | some (Payload.ok d), i => cases i <;> rfl
  | some Payload.corrupted, i => cases i <;> rfl

/-- `runMessages` distributes over list append. -/
theorem runMessages_append (A B : List (ℚ × Nat × ServerMessage)) (s : LiveState) :
    runMessages (A ++ B) s = runMessages B (runMessages A s) := by
  simp [runMessages, List.foldl_append]

/-- Over a block of decodable audio-only events, each event schedules
exactly one chunk and the connection flag is untouched. -/
theorem runMessages_ok_block (evs : List (ℚ × Nat × ℚ)) (s : LiveState) :
    (runMessages (evs.map okEvent) s).scheduled.length
        = s.scheduled.length + evs.length ∧
    (runMessages (evs.map okEvent) s).isConnected = s.isConnected := by
  induction evs generalizing s with
  | nil => simp [runMessages]
  | cons e rest ih =>
    obtain ⟨c, i, d⟩ := e
    have hstep : runMessages ((okEvent (c, i, d)) :: rest.map okEvent) s
        = runMessages (rest.map okEvent) (onmessage c i ⟨some (Payload.ok d), false⟩ s) := by
      simp [runMessages, okEvent]
    constructor
    · simp only [List.map_cons, hstep]
      rw [(ih _).1, onmessage_ok]
      simp
      omega
    · simp only [List.map_cons, hstep]
      rw [(ih _).2, onmessage_ok]

/-! ### Claim theorems -/

/-- C3: `stopConversation` is idempotent: invoked from any component state
(including one where `startConversation` has not completed), and again on
its own result, it leaves the animation loop cancelled, the session handle,
microphone tracks, capture processor and output audio context released,
every scheduled playback chunk stopped and cleared, and the session
disconnected; being a total function of the state, it raises no
exception. -/
theorem stop_idempotent_releases_all (s : LiveState) :
    released (stopConversation s) = true ∧
    (stopConversation s).isConnected = false ∧
    (stopConversation s).isSpeaking = false ∧
    teardownObs (stopConversation (stopConversation s)) = teardownObs (stopConversation s) := by
  simp [stop_spec, released, teardownObs]

/-- C8: the remote channel's `onclose` and `onerror` callbacks produce
exactly the teardown-observable state of `stopConversation` (all resources
released, disconnected, not speaking), `onerror` additionally surfaces the
user-visible message `Connection error`, and `onclose` leaves the error
state exactly as `stopConversation` does. -/
theorem close_error_same_teardown (s : LiveState) :
    teardownObs (onclose s) = teardownObs (stopConversation s) ∧
    teardownObs (onerror s) = teardownObs (stopConversation s) ∧
    (onerror s).error = some "Connection error" ∧
    (onclose s).error = (stopConversation s).error := by
  simp [onclose, onerror, stop_spec, teardownObs, addLogS]

/-- C6: if microphone permission is denied, `startConversation` surfaces
exactly one error (the thrown message, or the default when the message is
empty), never connects, issues no `ai.live.connect` attempt, and holds no
resources afterwards. -/
theorem mic_denied_no_session (errMsg : String) (s : LiveState) :
    released (startConversation false errMsg s) = true ∧
    (startConversation false errMsg s).isConnected = false ∧
    (startConversation false errMsg s).connectAttempts = s.connectAttempts ∧
    (startConversation false errMsg s).errorsSurfaced = s.errorsSurfaced + 1 ∧
    (startConversation false errMsg s).error =
      some (if errMsg = "" then "Failed to start conversation" else errMsg) := by
  simp [startConversation, stop_spec, released, addLogS]

/-- C10: `addLog` keeps at most five log entries: a suffix of the prior
list holding its `min 4` most recent entries, in order, followed by the new
message as the last entry. -/
theorem addLog_keeps_at_most_five (prev : List String) (msg : String) :
    (addLog prev msg).length ≤ 5 ∧
    ∃ t, t <:+ prev ∧ t.length = min 4 prev.length ∧ addLog prev msg = t ++ [msg] := by
  refine ⟨?_, List.drop (prev.length - 4) prev, List.drop_suffix _ _, ?_, rfl⟩
  · simp [addLog]
    omega
  · simp [List.length_drop]
    omega

/-- C1: an inbound audio chunk is scheduled to start at
`max(PlaybackTimelineCursor, currentOutputClockTime)` and the cursor then
advances to that start time plus the chunk duration; in particular chunks
of durations 1.0s/0.5s/2.0s arriving at clock times 0.1/0.2/5.0 in a
connected session with cursor 0 are scheduled at 0.1, 1.1 and 5.0. -/
theorem chunk_start_max_rule (clock d : ℚ) (newId : Nat) (s : LiveState) :
    (onmessage clock newId ⟨some (Payload.ok d), false⟩ s).scheduled
        = s.scheduled ++ [max s.nextStartTime clock] ∧
    (onmessage clock newId ⟨some (Payload.ok d), false⟩ s).nextStartTime
        = max s.nextStartTime clock + d ∧
    (runMessages
        [((1:ℚ)/10, 0, ⟨some (Payload.ok 1), false⟩),
         ((2:ℚ)/10, 1, ⟨some (Payload.ok (1/2)), false⟩),
         ((5:ℚ), 2, ⟨some (Payload.ok 2), false⟩)] connectedState).scheduled
        = [(1:ℚ)/10, 11/10, 5] := by
  refine ⟨by rw [onmessage_ok], by rw [onmessage_ok], ?_⟩
  simp [runMessages, onmessage_ok, connectedState, initialState]
  norm_num [max_def]

/-- C2 counterexample: after a valid 5-second chunk is scheduled, a message
carrying both a corrupted audio payload and the interruption flag leaves
the outstanding set non-empty, the speaking flag on and the cursor at 5
rather than the clock value 3: the decode rejection aborts the handler
before the interruption branch runs. -/
theorem interruption_skipped_cex :
    (runMessages
        [((0:ℚ), 0, ⟨some (Payload.ok 5), false⟩),
         ((3:ℚ), 1, ⟨some Payload.corrupted, true⟩)] connectedState).sources = [0] ∧
    (runMessages
        [((0:ℚ), 0, ⟨some (Payload.ok 5), false⟩),
         ((3:ℚ), 1, ⟨some Payload.corrupted, true⟩)] connectedState).isSpeaking = true ∧
    (runMessages
        [((0:ℚ), 0, ⟨some (Payload.ok 5), false⟩),
         ((3:ℚ), 1, ⟨some Payload.corrupted, true⟩)] connectedState).nextStartTime = 5 := by
  refine ⟨?_, ?_, ?_⟩ <;>
    norm_num [runMessages, onmessage_ok, onmessage_corrupted, connectedState,
      initialState, max_def]

/-- C2 (amended): on receipt of an interruption signal in a message whose
audio payload, if present, decodes, every outstanding chunk is
force-stopped and removed, the cursor is reset to the current output clock
time and the speaking flag is turned off; an undecodable audio payload in
the same message aborts the handler before the interruption branch. -/
theorem interruption_clears_playback (clock : ℚ) (newId : Nat) (m : ServerMessage)
    (s : LiveState) (hm : m.interrupted = true)
    (hd : m.audioData ≠ some Payload.corrupted) :
    (onmessage clock newId m s).sources = [] ∧
    (onmessage clock newId m s).nextStartTime = clock ∧
    (onmessage clock newId m s).isSpeaking = false := by
  obtain ⟨a, i⟩ := m
  cases i with
  | false => simp at hm
  | true =>
    match a, hd with
    | none, _ => simp [onmessage, handleInterruption, addLogS]
    | some (Payload.ok d), _ => simp [onmessage, handleInterruption, decodeAudioData, addLogS]
    | some Payload.corrupted, hd => exact absurd rfl hd

/-- C2 witness: a concrete interruption message carrying a decodable chunk,
arriving at clock 2 while chunk 5 is outstanding. -/
theorem interruption_clears_playback_witness :
    (onmessage 2 0 ⟨some (Payload.ok 1), true⟩
        { connectedState with sources := [5], isSpeaking := true, nextStartTime := 7 }).sources = [] ∧
    (onmessage 2 0 ⟨some (Payload.ok 1), true⟩
        { connectedState with sources := [5], isSpeaking := true, nextStartTime := 7 }).nextStartTime = 2 ∧
    (onmessage 2 0 ⟨some (Payload.ok 1), true⟩
        { connectedState with sources := [5], isSpeaking := true, nextStartTime := 7 }).isSpeaking = false :=
  interruption_clears_playback 2 0 ⟨some (Payload.ok 1), true⟩
    { connectedState with sources := [5], isSpeaking := true, nextStartTime := 7 } rfl (by simp)

/-- C4 counterexample: an interruption signal accompanied by a corrupted
audio payload does not reset the cursor to the clock value 3; it stays
at 5. -/
theorem cursor_reset_skipped_cex :
    (runMessages
        [((0:ℚ), 0, ⟨some (Payload.ok 5), false⟩),
         ((3:ℚ), 1, ⟨some Payload.corrupted, true⟩)] connectedState).nextStartTime = 5 ∧
    ((5:ℚ) ≠ 3) := by
  constructor
  · simp [runMessages, onmessage_ok, onmessage_corrupted, connectedState, initialState]
    norm_num [max_def]
  · norm_num

/-- C4 (amended): across inbound messages with non-negative chunk
durations the playback cursor never decreases when no interruption signal
is carried, and an interruption signal resets it to the current clock time
provided the same message does not carry an undecodable audio payload
(which aborts the handler before the reset). -/
theorem cursor_monotone_amended (clock : ℚ) (newId : Nat) (m : ServerMessage) (s : LiveState) :
    (m.interrupted = false → (∀ d, m.audioData = some (Payload.ok d) → 0 ≤ d) →
      s.nextStartTime ≤ (onmessage clock newId m s).nextStartTime) ∧
    (m.interrupted = true → m.audioData ≠ some Payload.corrupted →
      (onmessage clock newId m s).nextStartTime = clock) := by
  obtain ⟨a, i⟩ := m
  constructor
  · intro hi hd
    cases i with
    | true => simp at hi
    | false =>
      match a with
      | none => simp [onmessage, handleInterruption]
      | some (Payload.ok d) =>
        have h0 : (0:ℚ) ≤ d := hd d rfl
        rw [onmessage_ok]
        have h1 : s.nextStartTime ≤ max s.nextStartTime clock := le_max_left _ _
        calc s.nextStartTime ≤ max s.nextStartTime clock := h1
          _ ≤ max s.nextStartTime clock + d := by linarith
      | some Payload.corrupted =>
        rw [onmessage_corrupted]
        exact le_max_left _ _
  · intro hi hd
    cases i with
    | false => simp at hi
    | true =>
      match a, hd with
      | none, _ => simp [onmessage, handleInterruption, addLogS]
      | some (Payload.ok d), _ => simp [onmessage, handleInterruption, decodeAudioData, addLogS]
      | some Payload.corrupted, hd => exact absurd rfl hd

/-- C4 witness: a non-negative 1-second chunk at clock 2 does not decrease
the cursor, and a pure interruption message at clock 2 resets it to 2. -/
theorem cursor_monotone_amended_witness :
    (connectedState.nextStartTime ≤
      (onmessage 2 0 ⟨some (Payload.ok 1), false⟩ connectedState).nextStartTime) ∧
    (onmessage 2 0 ⟨none, true⟩ connectedState).nextStartTime = 2 :=
  ⟨(cursor_monotone_amended 2 0 ⟨some (Payload.ok 1), false⟩ connectedState).1 rfl
      (by rintro d h; simp at h; subst h; norm_num),
   (cursor_monotone_amended 2 0 ⟨none, true⟩ connectedState).2 rfl (by simp)⟩

/-- C7 counterexample: a corrupted audio payload sets the speaking flag
before decoding fails, so the flag is on while the Outstanding Chunk Set
is empty, violating "off exactly when the set is empty". -/
theorem speaking_flag_stuck_cex :
    (onmessage 0 0 ⟨some Payload.corrupted, false⟩ connectedState).isSpeaking = true ∧
    (onmessage 0 0 ⟨some Payload.corrupted, false⟩ connectedState).sources = [] := by
  rw [onmessage_corrupted]
  simp [connectedState, initialState]

/-- C7 (amended): every scheduled chunk is added to the Outstanding Chunk
Set on schedule and removed by its `ended` listener, and the invariant
"speaking flag off exactly when the set is empty" holds initially and is
preserved by every `ended` event, by teardown, and by every message whose
audio payload (if any) decodes; a decode failure can leave the flag on
with the set empty. -/
theorem speaking_flag_tracks_chunks (clock d : ℚ) (newId chunkId : Nat)
    (m : ServerMessage) (s : LiveState) :
    (onmessage clock newId ⟨some (Payload.ok d), false⟩ s).sources = s.sources ++ [newId] ∧
    (onended chunkId s).sources = s.sources.erase chunkId ∧
    speakingInv initialState ∧
    (speakingInv s → m.audioData ≠ some Payload.corrupted →
      speakingInv (onmessage clock newId m s)) ∧
    (speakingInv s → speakingInv (onended chunkId s)) ∧
    speakingInv (stopConversation s) := by
  refine ⟨by rw [onmessage_ok], ?_, by simp [speakingInv, initialState], ?_, ?_,
    by simp [stop_spec, speakingInv]⟩
  · simp only [onended]
    split <;> rfl
  · intro hinv hd
    obtain ⟨a, i⟩ := m
    match a, hd with
    | none, _ =>
      cases i with
      | true => simp [onmessage, handleInterruption, addLogS, speakingInv]
      | false => simpa [onmessage, handleInterruption] using hinv
    | some (Payload.ok dd), _ =>
      cases i with
      | true => simp [onmessage, handleInterruption, decodeAudioData, addLogS, speakingInv]
      | false =>
        rw [onmessage_ok]
        simp [speakingInv]
    | some Payload.corrupted, hd => exact absurd rfl hd
  · intro hinv
    simp only [onended]
    split
    · rename_i h
      have hempty : s.sources.erase chunkId = [] := by simpa [List.isEmpty_iff] using h
      simp [speakingInv, hempty]
    · rename_i h
      have hne : s.sources.erase chunkId ≠ [] := by simpa [List.isEmpty_iff] using h
      have hsrc : s.sources ≠ [] := by
        intro hh
        exact hne (by simp [hh])
      simp only [speakingInv] at hinv ⊢
      simp only [iff_iff_implies_and_implies] at hinv ⊢
      constructor
      · intro hsp
        exact absurd (hinv.1 hsp) hsrc
      · intro hh
        exact absurd hh hne

/-- C7 witness: scheduling a decodable 1-second chunk from the freshly
connected state and completing it preserve the speaking-flag invariant. -/
theorem speaking_flag_tracks_chunks_witness :
    speakingInv (onmessage 0 4 ⟨some (Payload.ok 1), false⟩ connectedState) ∧
    speakingInv (onended 4 connectedState) :=
  ⟨(speaking_flag_tracks_chunks 0 1 4 4 ⟨some (Payload.ok 1), false⟩ connectedState).2.2.2.1
      (by simp [speakingInv, connectedState, initialState]) (by simp),
   (speaking_flag_tracks_chunks 0 1 4 4 ⟨some (Payload.ok 1), false⟩ connectedState).2.2.2.2.1
      (by simp [speakingInv, connectedState, initialState])⟩

/-- C5 counterexample: a corrupted inbound payload is dropped (nothing is
scheduled) but no log entry is produced — the handler has no catch and
calls no logger, so the log list stays empty. -/
theorem decode_failure_unlogged_cex :
    (onmessage 0 0 ⟨some Payload.corrupted, false⟩ connectedState).logs = ([] : List String) ∧
    (onmessage 0 0 ⟨some Payload.corrupted, false⟩ connectedState).scheduled = ([] : List ℚ) := by
  rw [onmessage_corrupted]
  simp [connectedState, initialState]

/-- C5 (amended): a decode failure is non-fatal: the corrupted chunk is
dropped without any log entry, subsequent chunks keep being processed, and
a sequence of N = pre+1+post audio payloads of which exactly one is
corrupted schedules exactly N-1 chunks, leaving the connection flag
untouched. -/
theorem decode_failure_nonfatal (pre post : List (ℚ × Nat × ℚ)) (c : ℚ) (i : Nat)
    (s : LiveState) :
    (runMessages (pre.map okEvent ++ [(c, i, ⟨some Payload.corrupted, false⟩)] ++ post.map okEvent) s).scheduled.length
        = s.scheduled.length + pre.length + post.length ∧
    (runMessages (pre.map okEvent ++ [(c, i, ⟨some Payload.corrupted, false⟩)] ++ post.map okEvent) s).isConnected
        = s.isConnected ∧
    (runMessages (pre.map okEvent ++ [(c, i, ⟨some Payload.corrupted, false⟩)] ++ post.map okEvent) s).logs
        = s.logs := by
  have hmid : ∀ t : LiveState, runMessages [(c, i, ⟨some Payload.corrupted, false⟩)] t
      = onmessage c i ⟨some Payload.corrupted, false⟩ t := fun t => rfl
  have hlogs : ∀ (evs : List (ℚ × Nat × ℚ)) (t : LiveState),
      (runMessages (evs.map okEvent) t).logs = t.logs := by
    intro evs
    induction evs with
    | nil => intro t; rfl
    | cons e rest ih =>
      intro t
      obtain ⟨ec, ei, ed⟩ := e
      have hstep : runMessages (okEvent (ec, ei, ed) :: rest.map okEvent) t
          = runMessages (rest.map okEvent) (onmessage ec ei ⟨some (Payload.ok ed), false⟩ t) := by
        simp [runMessages, okEvent]
      simp only [List.map_cons, hstep]
      rw [ih, onmessage_ok]
  rw [runMessages_append, runMessages_append, hmid]
  have h1 := runMessages_ok_block pre s
  have h2 := onmessage_corrupted c i false (runMessages (pre.map okEvent) s)
  have h3 := runMessages_ok_block post
    (onmessage c i ⟨some Payload.corrupted, false⟩ (runMessages (pre.map okEvent) s))
  refine ⟨?_, ?_, ?_⟩
  · rw [h3.1, h2]
    simp only []
    have := h1.1
    simp only [h2] at *
    simp_all
  · rw [h3.2, h2]
    simp only []
    have := h1.2
    simp_all
  · rw [hlogs, h2]
    simp only []
    exact hlogs pre s

/-- C9: when the first `generateVideos` request fails with a message
containing `Requested entity was not found` or `403` and
`window.aistudio?.openSelectKey` is available, `generateVideo` re-triggers
credential selection exactly once and retries exactly once, surfacing the
retried request's outcome (a retry failure is surfaced with no further
attempt); any other failure of the first request, or absence of the
selection mechanism, is surfaced without retry. -/
theorem generateVideo_retries_once (env : VideoEnv) (msg : String)
    (h1 : env.attempt1 = Except.error msg) :
    (errMatches msg = true → env.aistudioAvailable = true →
      generateVideo env = ⟨2, 1, env.attempt2⟩) ∧
    (errMatches msg = false → generateVideo env = ⟨1, 0, Except.error msg⟩) ∧
    (env.aistudioAvailable = false → generateVideo env = ⟨1, 0, Except.error msg⟩) := by
  obtain ⟨av, a1, a2⟩ := env
  simp only at h1
  subst h1
  refine ⟨?_, ?_, ?_⟩
  · intro hm hav
    subst hav
    have hne : (msg == "") = false := by
      cases h : (msg == "") with
      | false => rfl
      | true =>
        have hmsg : msg = "" := by simpa using h
        rw [hmsg] at hm
        have hfalse : errMatches "" = false := by decide
        rw [hfalse] at hm
        cases hm
    simp [generateVideo, hne, hm]
  · intro hm
    simp [generateVideo, hm]
  · intro hav
    subst hav
    simp only [generateVideo]
    split_ifs <;> simp_all

/-- C9 witness: a first request failing with a `403` message while
`window.aistudio` is available yields exactly two requests, one
credential-selection trigger, and surfaces the retry's failure. -/
theorem generateVideo_retries_once_witness :
    generateVideo ⟨true, Except.error "request failed with 403",
        Except.error "still failing"⟩
      = ⟨2, 1, Except.error "still failing"⟩ :=
  (generateVideo_retries_once
      ⟨true, Except.error "request failed with 403", Except.error "still failing"⟩
      "request failed with 403" rfl).1 (by decide) rfl
